import Mathlib

/-!
Verification of the usage-budgeted LLM orchestration layer of the
Digital-Wardrobe outfit recommender (backend/app/llm_service.py and
backend/app/llm_service_demo.py), shallowly embedded in Lean.

Modelling choices:
* Python `datetime.date` values become a `Date` structure ordered
  lexicographically by (year, month, day), exactly as Python compares dates.
* Wall-clock instants become a `Time` = date plus hour-of-day, the only two
  components `UsageTracker` ever reads from `datetime.now()`.
* Python floats for dollar amounts become exact rationals `ℚ`.
* `UsageTracker.monthly_reset` holds a `datetime` right after `__init__`
  but a plain `date` after the first monthly rollover (line 43 assigns
  `now.date().replace(day=1)`); the inductive `MonthlyReset` keeps that
  distinction because line 41 branches on `isinstance(..., datetime)`.
* Mutating methods become state-passing functions returning the new tracker.
* The denial message strings keep the source wording; the `:.2f` fixed-point
  number formatting inside them is abstracted to `toString` of the exact
  rational, which preserves which of the three distinct reasons is reported.
* The external chat-completions call in `generate_outfit_recommendation`
  is a parameter: `none` models a transport-level exception, `some r` a
  completed call reporting token usage and whether its body parses as JSON.
-/

/-- Calendar date, mirroring Python `datetime.date`. -/
structure Date where
  year : Nat
  month : Nat
  day : Nat
deriving DecidableEq, Repr

/-- Python `date.__lt__`: lexicographic on (year, month, day). -/
def dateLt (a b : Date) : Bool :=
  a.year < b.year ||
    (a.year == b.year &&
      (a.month < b.month || (a.month == b.month && a.day < b.day)))

/-- The two components of `datetime.now()` the tracker reads:
`now.date()` and `now.hour`. -/
structure Time where
  date : Date
  hour : Nat
deriving DecidableEq, Repr

/-- Python `d.replace(day=1)` on a date. -/
def firstOfMonth (d : Date) : Date :=
  { year := d.year, month := d.month, day := 1 }

/-- The `monthly_reset` attribute: a `datetime` right after `__init__`,
a plain `date` after the first monthly rollover (llm_service.py line 43). -/
inductive MonthlyReset where
  | dtime (d : Date)
  | dateOnly (d : Date)
deriving DecidableEq, Repr

/-- State of `UsageTracker` (llm_service.py lines 12-25), limits included. -/
structure UsageTracker where
  daily_count : Nat
  hourly_count : Nat
  monthly_cost : ℚ
  last_reset_day : Date
  last_reset_hour : Nat
  monthly_reset : MonthlyReset
  max_daily : Nat
  max_hourly : Nat
  monthly_budget : ℚ
deriving DecidableEq, Repr

/-- The condition of llm_service.py line 41, parsed as Python parses it:
`(current_month_start > self.monthly_reset.date()) if
isinstance(self.monthly_reset, datetime) else self.monthly_reset` —
when `monthly_reset` is a plain `date` the whole condition is the
truthiness of that date object, which is always `True`. -/
def monthlyResetCond (mr : MonthlyReset) (current_month_start : Date) : Bool :=
  match mr with
  | .dtime d => dateLt d current_month_start
  | .dateOnly _ => true

/-- Embeds `UsageTracker.reset_if_needed` (llm_service.py lines 27-44). -/
def reset_if_needed (s : UsageTracker) (now : Time) : UsageTracker :=
  let s1 :=
    if dateLt s.last_reset_day now.date then
      { s with daily_count := 0, last_reset_day := now.date }
    else s
  let s2 :=
    if now.hour ≠ s1.last_reset_hour then
      { s1 with hourly_count := 0, last_reset_hour := now.hour }
    else s1
  let current_month_start := firstOfMonth now.date
  if monthlyResetCond s2.monthly_reset current_month_start then
    { s2 with monthly_cost := 0, monthly_reset := .dateOnly current_month_start }
  else s2

/-- Denial message of llm_service.py line 51 (number formatting abstracted). -/
def monthlyMsg (budget : ℚ) : String :=
  "Monthly budget limit reached ($" ++ toString budget ++ ")"

/-- Denial message of llm_service.py line 55. -/
def dailyMsg (max_daily : Nat) : String :=
  "Daily request limit reached (" ++ toString max_daily ++ " requests)"

/-- Denial message of llm_service.py line 59. -/
def hourlyMsg (max_hourly : Nat) : String :=
  "Hourly request limit reached (" ++ toString max_hourly ++ " requests)"

/-- The pure decision of `can_make_request` after the reset
(llm_service.py lines 50-60). -/
def checkLimits (s : UsageTracker) : Bool × String :=
  if s.monthly_budget ≤ s.monthly_cost then (false, monthlyMsg s.monthly_budget)
  else if s.max_daily ≤ s.daily_count then (false, dailyMsg s.max_daily)
  else if s.max_hourly ≤ s.hourly_count then (false, hourlyMsg s.max_hourly)
  else (true, "")

/-- Embeds `UsageTracker.can_make_request` (llm_service.py lines 46-60): runs
`reset_if_needed`, then the three checks; returns the decision together
with the tracker state as mutated by the reset. -/
def can_make_request (s : UsageTracker) (now : Time) :
    (Bool × String) × UsageTracker :=
  let s1 := reset_if_needed s now
  (checkLimits s1, s1)

/-- Embeds `UsageTracker.record_request` (llm_service.py lines 62-65): logging
aside, it unconditionally bumps both counters and adds the cost. -/
def record_request (s : UsageTracker) (cost : ℚ) : UsageTracker :=
  { s with
    daily_count := s.daily_count + 1
    hourly_count := s.hourly_count + 1
    monthly_cost := s.monthly_cost + cost }

/-- A sequence of `record_request` calls, in order. -/
def recordMany (s : UsageTracker) (costs : List ℚ) : UsageTracker :=
  costs.foldl record_request s

/-- Embeds `LLMService.MODEL_COSTS` (llm_service.py lines 92-96): per-1K-token
input/output rates. -/
def MODEL_COSTS : List (String × ℚ × ℚ) :=
  [("gpt-3.5-turbo", (0.0005, 0.0015)),
   ("gpt-4", (0.03, 0.06)),
   ("gpt-4-turbo", (0.01, 0.03))]

/-- Embeds `LLMService._estimate_cost` (llm_service.py lines 112-116):
`MODEL_COSTS.get(self.model, MODEL_COSTS["gpt-3.5-turbo"])`, then
`(input_tokens / 1000) * input + (output_tokens / 1000) * output`. -/
def estimate_cost (model : String) (input_tokens output_tokens : Nat) : ℚ :=
  let costs :=
    ((MODEL_COSTS.lookup model).getD
      ((MODEL_COSTS.lookup "gpt-3.5-turbo").getD (0, 0)))
  (input_tokens : ℚ) / 1000 * costs.1 + (output_tokens : ℚ) / 1000 * costs.2

/-- What the external chat-completions call reports when it completes:
the token usage and whether `json.loads(result_text)` succeeds. -/
structure LLMResponse where
  prompt_tokens : Nat
  completion_tokens : Nat
  content_parses : Bool
deriving DecidableEq, Repr

/-- The failures `generate_outfit_recommendation` can raise. -/
inductive GenError where
  | rateLimit (reason : String)
  | generationFailed
deriving DecidableEq, Repr

/-- Embeds `LLMService.generate_outfit_recommendation` (llm_service.py
lines 181-243), reduced to its effect on the tracker: result, final
tracker state, and whether the external call was dispatched.
`ext = none` is a transport exception from the client call (nothing
recorded); `ext = some r` is a completed call — cost is estimated from the
reported tokens and recorded (line 225) before `json.loads` runs
(line 228), and on successful parsing the metadata block calls
`get_usage_stats`, which runs `reset_if_needed` once more (line 235). -/
def generate_outfit_recommendation (model : String) (s : UsageTracker)
    (now : Time) (ext : Option LLMResponse) :
    Except GenError Unit × UsageTracker × Bool :=
  let d := can_make_request s now
  if d.1.1 = false then
    (.error (.rateLimit d.1.2), d.2, false)
  else
    match ext with
    | none => (.error .generationFailed, d.2, true)
    | some r =>
      let cost := estimate_cost model r.prompt_tokens r.completion_tokens
      let s2 := record_request d.2 cost
      if r.content_parses then (.ok (), reset_if_needed s2 now, true)
      else (.error .generationFailed, s2, true)

/-- A wardrobe item as the demo service reads it: `id`, `category`, and the
optional attribute fields its reason strings use (llm_service_demo.py). -/
structure DemoItem where
  id : Nat
  category : String
  clothing_type : Option String := none
  color : Option String := none
  style : Option String := none
deriving DecidableEq, Repr

/-- One selected role in the demo outfit: the item id and the reason text. -/
structure DemoPick where
  id : Nat
  reason : String
deriving DecidableEq, Repr

/-- The demo response (llm_service_demo.py lines 31-59). -/
structure DemoResponse where
  top : Option DemoPick
  bottom : Option DemoPick
  description : String
  styling_tips : String
  confidence : String
  model : String
  cost_usd : ℚ
  tokens_used : Nat
deriving DecidableEq, Repr

/-- Embeds `DemoLLMService.generate_outfit_recommendation` (llm_service_demo.py
lines 11-61): filters tops and bottoms by category membership, picks the
first of each, fills fixed-template text, zero cost and tokens.  It takes
no tracker: the demo class has no `UsageTracker` at all. -/
def demo_generate_outfit_recommendation (user_request : String)
    (wardrobe_items : List DemoItem) : DemoResponse :=
  let tops := wardrobe_items.filter
    (fun it => it.category == "shirt" || it.category == "hoodie")
  let bottoms := wardrobe_items.filter
    (fun it => it.category == "pants" || it.category == "shorts")
  let selected_top := tops.head?
  let selected_bottom := bottoms.head?
  { top := selected_top.map (fun it =>
      { id := it.id
        reason := "Perfect " ++ it.style.getD "casual" ++ " " ++
          it.clothing_type.getD "top" ++ " for this occasion" })
    bottom := selected_bottom.map (fun it =>
      { id := it.id
        reason := "Comfortable " ++ it.color.getD "" ++ " " ++
          it.clothing_type.getD "bottom" })
    description := "A great outfit for " ++ user_request
    styling_tips := "Keep it simple and comfortable. Accessorize minimally."
    confidence := "medium"
    model := "demo-mode"
    cost_usd := 0
    tokens_used := 0 }

/-! ## Helper lemmas -/

/-- Unfolding one step of `recordMany`. -/
theorem recordMany_cons (s : UsageTracker) (c : ℚ) (cs : List ℚ) :
    recordMany s (c :: cs) = recordMany (record_request s c) cs := rfl

/-- A batch of records adds its length to `daily_count`. -/
theorem recordMany_daily_count (s : UsageTracker) (cs : List ℚ) :
    (recordMany s cs).daily_count = s.daily_count + cs.length := by
  induction cs generalizing s with
  | nil => rfl
  | cons c cs ih =>
    rw [recordMany_cons, ih]
    simp [record_request]
    omega

/-- A batch of records adds its length to `hourly_count`. -/
theorem recordMany_hourly_count (s : UsageTracker) (cs : List ℚ) :
    (recordMany s cs).hourly_count = s.hourly_count + cs.length := by
  induction cs generalizing s with
  | nil => rfl
  | cons c cs ih =>
    rw [recordMany_cons, ih]
    simp [record_request]
    omega

/-- A batch of records adds the sum of its costs to `monthly_cost`. -/
theorem recordMany_monthly_cost (s : UsageTracker) (cs : List ℚ) :
    (recordMany s cs).monthly_cost = s.monthly_cost + cs.sum := by
  induction cs generalizing s with
  | nil => simp [recordMany]
  | cons c cs ih =>
    rw [recordMany_cons, ih]
    simp [record_request]
    ring

/-- Recording requests never moves the reset markers or the limits. -/
theorem recordMany_preserves (s : UsageTracker) (cs : List ℚ) :
    (recordMany s cs).last_reset_day = s.last_reset_day ∧
    (recordMany s cs).last_reset_hour = s.last_reset_hour ∧
    (recordMany s cs).monthly_reset = s.monthly_reset ∧
    (recordMany s cs).max_daily = s.max_daily ∧
    (recordMany s cs).max_hourly = s.max_hourly ∧
    (recordMany s cs).monthly_budget = s.monthly_budget := by
  induction cs generalizing s with
  | nil => exact ⟨rfl, rfl, rfl, rfl, rfl, rfl⟩
  | cons c cs ih => exact ih (record_request s c)

/-- When no boundary fires, `reset_if_needed` leaves the state untouched. -/
theorem reset_if_needed_noop (s : UsageTracker) (t : Time)
    (h1 : dateLt s.last_reset_day t.date = false)
    (h2 : t.hour = s.last_reset_hour)
    (h3 : monthlyResetCond s.monthly_reset (firstOfMonth t.date) = false) :
    reset_if_needed s t = s := by
  simp [reset_if_needed, h1, h2, h3]

/-! ## C10 -/

/-- C10: `record_request` enforces no limit and no sign check — for every
tracker state and every cost (negative included), it unconditionally
increments both counters by 1 and adds the cost to `monthly_cost`; counts
already at or past their limits still grow, and a negative cost strictly
decreases `monthly_cost`. -/
theorem record_request_unconditional (s : UsageTracker) (c : ℚ) :
    (record_request s c).daily_count = s.daily_count + 1 ∧
    (record_request s c).hourly_count = s.hourly_count + 1 ∧
    (record_request s c).monthly_cost = s.monthly_cost + c ∧
    (c < 0 → (record_request s c).monthly_cost < s.monthly_cost) ∧
    (s.max_daily ≤ s.daily_count → s.max_daily < (record_request s c).daily_count) ∧
    (s.max_hourly ≤ s.hourly_count → s.max_hourly < (record_request s c).hourly_count) := by
  refine ⟨rfl, rfl, rfl, ?_, ?_, ?_⟩
  · intro h
    show s.monthly_cost + c < s.monthly_cost
    linarith
  · intro h
    show s.max_daily < s.daily_count + 1
    omega
  · intro h
    show s.max_hourly < s.hourly_count + 1
    omega

/-- A tracker already at its daily and hourly limits and over budget. -/
def c10State : UsageTracker :=
  { daily_count := 230, hourly_count := 10, monthly_cost := 6,
    last_reset_day := ⟨2026, 1, 10⟩, last_reset_hour := 12,
    monthly_reset := .dtime ⟨2026, 1, 1⟩,
    max_daily := 230, max_hourly := 10, monthly_budget := 5 }

/-- Witness for C10 at a saturated tracker and a negative cost. -/
theorem record_request_unconditional_witness :
    ((-1 : ℚ) < 0 ∧ c10State.max_daily ≤ c10State.daily_count ∧
      c10State.max_hourly ≤ c10State.hourly_count) ∧
    (record_request c10State (-1)).monthly_cost < c10State.monthly_cost ∧
    c10State.max_daily < (record_request c10State (-1)).daily_count ∧
    c10State.max_hourly < (record_request c10State (-1)).hourly_count := by
  have h := record_request_unconditional c10State (-1)
  exact ⟨⟨by norm_num, by decide, by decide⟩,
    h.2.2.2.1 (by norm_num), h.2.2.2.2.1 (by decide), h.2.2.2.2.2 (by decide)⟩

/-! ## C7 -/

/-- C7: within one unreset window, `monthly_cost` after a finite sequence of
`record_request` calls with non-negative costs equals the prior value plus
the sum of the recorded costs, and each call adds exactly 1 to both
`daily_count` and `hourly_count` (so a batch adds its length).
`record_request` itself performs no reset, so no boundary crossing can occur
between the calls. -/
theorem recordMany_accumulates (s : UsageTracker) (cs : List ℚ)
    (hpos : ∀ c ∈ cs, 0 ≤ c) :
    (recordMany s cs).monthly_cost = s.monthly_cost + cs.sum ∧
    (recordMany s cs).daily_count = s.daily_count + cs.length ∧
    (recordMany s cs).hourly_count = s.hourly_count + cs.length ∧
    ∀ c : ℚ, 0 ≤ c →
      ((record_request (recordMany s cs) c).daily_count
          = (recordMany s cs).daily_count + 1 ∧
        (record_request (recordMany s cs) c).hourly_count
          = (recordMany s cs).hourly_count + 1 ∧
        (record_request (recordMany s cs) c).monthly_cost
          = (recordMany s cs).monthly_cost + c) :=
  ⟨recordMany_monthly_cost s cs, recordMany_daily_count s cs,
    recordMany_hourly_count s cs, fun _ _ => ⟨rfl, rfl, rfl⟩⟩

/-- A fresh tracker used by the C7 witness. -/
def c7State : UsageTracker :=
  { daily_count := 0, hourly_count := 0, monthly_cost := 0,
    last_reset_day := ⟨2026, 1, 10⟩, last_reset_hour := 12,
    monthly_reset := .dtime ⟨2026, 1, 1⟩,
    max_daily := 230, max_hourly := 10, monthly_budget := 5 }

/-- Witness for C7 on two concrete non-negative costs. -/
theorem recordMany_accumulates_witness :
    (∀ c ∈ ([1/10, 1/5] : List ℚ), 0 ≤ c) ∧
    (recordMany c7State [1/10, 1/5]).monthly_cost = 3/10 ∧
    (recordMany c7State [1/10, 1/5]).daily_count = 2 ∧
    (recordMany c7State [1/10, 1/5]).hourly_count = 2 := by
  have hpos : ∀ c ∈ ([1/10, 1/5] : List ℚ), 0 ≤ c := by
    intro c hc
    rcases List.mem_cons.mp hc with h | hc
    · rw [h]; norm_num
    · rcases List.mem_cons.mp hc with h | hc
      · rw [h]; norm_num
      · exact absurd hc (List.not_mem_nil c)
  have h := recordMany_accumulates c7State [1/10, 1/5] hpos
  refine ⟨hpos, ?_, ?_, ?_⟩
  · rw [h.1]; norm_num [c7State]
  · rw [h.2.1]; rfl
  · rw [h.2.2.1]; rfl

/-! ## C8 -/

/-- C8: `_estimate_cost` computes `(input_tokens/1000) * input_rate +
(output_tokens/1000) * output_rate` from the rate-table entry of the model,
falls back to the default model `"gpt-3.5-turbo"` when the identifier is
absent from the table, and at the table's own rates
`{input: 0.0005, output: 0.0015}` maps (1000, 1000) to 0.002.  It is a pure
function of its arguments, so determinism and absence of side effects hold
by construction. -/
theorem estimate_cost_spec :
    (∀ (m : String) (r : ℚ × ℚ), MODEL_COSTS.lookup m = some r →
      ∀ i o : Nat,
        estimate_cost m i o = (i : ℚ) / 1000 * r.1 + (o : ℚ) / 1000 * r.2) ∧
    (∀ m : String, MODEL_COSTS.lookup m = none →
      ∀ i o : Nat, estimate_cost m i o = estimate_cost "gpt-3.5-turbo" i o) ∧
    estimate_cost "gpt-3.5-turbo" 1000 1000 = 0.002 := by
  have hd : List.lookup "gpt-3.5-turbo" MODEL_COSTS = some (0.0005, 0.0015) :=
    rfl
  refine ⟨?_, ?_, ?_⟩
  · intro m r hm i o
    simp [estimate_cost, hm]
  · intro m hm i o
    simp [estimate_cost, hm, hd]
  · norm_num [estimate_cost, MODEL_COSTS, List.lookup]

/-- Witness for C8: a model present in the table, and an absent one. -/
theorem estimate_cost_spec_witness :
    MODEL_COSTS.lookup "gpt-4" = some (0.03, 0.06) ∧
    estimate_cost "gpt-4" 2000 500 =
      (2000 : ℚ) / 1000 * 0.03 + (500 : ℚ) / 1000 * 0.06 ∧
    MODEL_COSTS.lookup "mystery-model" = none ∧
    estimate_cost "mystery-model" 7 9 = estimate_cost "gpt-3.5-turbo" 7 9 := by
  refine ⟨rfl, ?_, rfl, ?_⟩
  · exact estimate_cost_spec.1 "gpt-4" (0.03, 0.06) rfl 2000 500
  · exact estimate_cost_spec.2.1 "mystery-model" rfl 7 9

/-! ## C2 -/

/-- A tracker as `__init__` builds it during January 2026: `monthly_reset`
still holds a `datetime` (whose date part is the first of the month). -/
def c2State : UsageTracker :=
  { daily_count := 0, hourly_count := 0, monthly_cost := 0,
    last_reset_day := ⟨2026, 1, 10⟩, last_reset_hour := 9,
    monthly_reset := .dtime ⟨2026, 1, 1⟩,
    max_daily := 230, max_hourly := 10, monthly_budget := 5 }

/-- C2 (code bug): after the first genuine month rollover, `monthly_reset`
holds a plain `date` and the condition on llm_service.py line 41 degenerates
to the truthiness of that date object, so `reset_if_needed` zeros
`monthly_cost` on every later call — here a cost of 1/2 recorded on
2026-02-05 is wiped by a check on 2026-02-15 of the same month.  The claim's
"only if the month advanced" direction fails. -/
theorem monthly_cost_zeroed_within_same_month :
    (reset_if_needed c2State ⟨⟨2026, 2, 5⟩, 9⟩).monthly_reset =
      .dateOnly ⟨2026, 2, 1⟩ ∧
    (record_request (reset_if_needed c2State ⟨⟨2026, 2, 5⟩, 9⟩)
        (1/2)).monthly_cost = 1/2 ∧
    firstOfMonth (⟨2026, 2, 15⟩ : Date) = ⟨2026, 2, 1⟩ ∧
    dateLt ⟨2026, 2, 1⟩ (firstOfMonth ⟨2026, 2, 15⟩) = false ∧
    (reset_if_needed
        (record_request (reset_if_needed c2State ⟨⟨2026, 2, 5⟩, 9⟩) (1/2))
        ⟨⟨2026, 2, 15⟩, 9⟩).monthly_cost = 0 := by
  refine ⟨rfl, ?_, rfl, rfl, ?_⟩
  · show (0 : ℚ) + 1/2 = 1/2
    norm_num
  · rfl

/-! ## C4 -/

/-- A tracker last reset on 2026-01-01 at hour 15 with live counters. -/
def c4State : UsageTracker :=
  { daily_count := 3, hourly_count := 5, monthly_cost := 1,
    last_reset_day := ⟨2026, 1, 1⟩, last_reset_hour := 15,
    monthly_reset := .dtime ⟨2026, 1, 1⟩,
    max_daily := 230, max_hourly := 10, monthly_budget := 5 }

/-- Counterexample to C4: two calendar days pass but the check lands at the
same hour-of-day (15), so `now.hour != last_reset_hour` is false and
`hourly_count` keeps its old value 5 even though `daily_count` is zeroed —
the state is not a single fresh window. -/
theorem idle_days_keep_hourly_count :
    dateLt c4State.last_reset_day (⟨2026, 1, 3⟩ : Date) = true ∧
    (reset_if_needed c4State ⟨⟨2026, 1, 3⟩, 15⟩).daily_count = 0 ∧
    (reset_if_needed c4State ⟨⟨2026, 1, 3⟩, 15⟩).hourly_count = 5 := by
  exact ⟨rfl, rfl, rfl⟩

/-- C4 (amended): after idling across one or more calendar-day boundaries,
the next `reset_if_needed` zeros `daily_count` regardless of how many
boundaries were missed; `hourly_count` is zeroed exactly when the new
wall-clock hour-of-day number differs from `last_reset_hour`, and keeps its
old value when the two coincide (the code compares hour-of-day numbers,
not elapsed hours). -/
theorem reset_after_idle_days (s : UsageTracker) (t : Time)
    (h : dateLt s.last_reset_day t.date = true) :
    (reset_if_needed s t).daily_count = 0 ∧
    (t.hour ≠ s.last_reset_hour → (reset_if_needed s t).hourly_count = 0) ∧
    (t.hour = s.last_reset_hour →
      (reset_if_needed s t).hourly_count = s.hourly_count) := by
  by_cases hh : t.hour = s.last_reset_hour
  · by_cases hm : monthlyResetCond s.monthly_reset (firstOfMonth t.date) = true
    · refine ⟨?_, fun hcon => absurd hh hcon, fun _ => ?_⟩ <;>
        simp [reset_if_needed, h, hh, hm]
    · refine ⟨?_, fun hcon => absurd hh hcon, fun _ => ?_⟩ <;>
        simp [reset_if_needed, h, hh, Bool.not_eq_true _ ▸ hm]
  · by_cases hm : monthlyResetCond s.monthly_reset (firstOfMonth t.date) = true
    · refine ⟨?_, fun _ => ?_, fun hcon => absurd hcon hh⟩ <;>
        simp [reset_if_needed, h, hh, hm]
    · refine ⟨?_, fun _ => ?_, fun hcon => absurd hcon hh⟩ <;>
        simp [reset_if_needed, h, hh, Bool.not_eq_true _ ▸ hm]

/-- Witness for C4 (amended) on a concrete idle tracker, with the hour
differing so both counters end at zero. -/
theorem reset_after_idle_days_witness :
    dateLt c4State.last_reset_day (⟨2026, 1, 4⟩ : Date) = true ∧
    (reset_if_needed c4State ⟨⟨2026, 1, 4⟩, 16⟩).daily_count = 0 ∧
    (reset_if_needed c4State ⟨⟨2026, 1, 4⟩, 16⟩).hourly_count = 0 := by
  have h := reset_after_idle_days c4State ⟨⟨2026, 1, 4⟩, 16⟩ rfl
  exact ⟨rfl, h.1, h.2.1 (by decide)⟩

/-! ## C1 -/

/-- C1: `can_make_request` reports exactly one denial reason, in the fixed
precedence order monthly budget, then daily, then hourly, on the state as
seen after its initial `reset_if_needed`: monthly over budget gives the
monthly-budget reason even when the daily and hourly limits are also hit;
otherwise daily at its limit gives the daily reason; otherwise hourly at
its limit gives the hourly reason; otherwise the request is allowed with an
empty reason. -/
theorem can_make_request_precedence (s : UsageTracker) (t : Time) :
    ((reset_if_needed s t).monthly_budget ≤ (reset_if_needed s t).monthly_cost →
      (can_make_request s t).1 =
        (false, monthlyMsg (reset_if_needed s t).monthly_budget)) ∧
    ((reset_if_needed s t).monthly_cost < (reset_if_needed s t).monthly_budget →
      (reset_if_needed s t).max_daily ≤ (reset_if_needed s t).daily_count →
      (can_make_request s t).1 =
        (false, dailyMsg (reset_if_needed s t).max_daily)) ∧
    ((reset_if_needed s t).monthly_cost < (reset_if_needed s t).monthly_budget →
      (reset_if_needed s t).daily_count < (reset_if_needed s t).max_daily →
      (reset_if_needed s t).max_hourly ≤ (reset_if_needed s t).hourly_count →
      (can_make_request s t).1 =
        (false, hourlyMsg (reset_if_needed s t).max_hourly)) ∧
    ((reset_if_needed s t).monthly_cost < (reset_if_needed s t).monthly_budget →
      (reset_if_needed s t).daily_count < (reset_if_needed s t).max_daily →
      (reset_if_needed s t).hourly_count < (reset_if_needed s t).max_hourly →
      (can_make_request s t).1 = (true, "")) := by
  have e : (can_make_request s t).1 = checkLimits (reset_if_needed s t) := rfl
  refine ⟨?_, ?_, ?_, ?_⟩
  · intro h1
    rw [e]; unfold checkLimits
    rw [if_pos h1]
  · intro h1 h2
    rw [e]; unfold checkLimits
    rw [if_neg (not_le.mpr h1), if_pos h2]
  · intro h1 h2 h3
    rw [e]; unfold checkLimits
    rw [if_neg (not_le.mpr h1), if_neg (not_le.mpr h2), if_pos h3]
  · intro h1 h2 h3
    rw [e]; unfold checkLimits
    rw [if_neg (not_le.mpr h1), if_neg (not_le.mpr h2),
      if_neg (not_le.mpr h3)]

/-- A tracker over budget with the daily and hourly limits also hit, at a
time crossing no boundary. -/
def c1State : UsageTracker :=
  { daily_count := 5, hourly_count := 5, monthly_cost := 2,
    last_reset_day := ⟨2026, 1, 10⟩, last_reset_hour := 12,
    monthly_reset := .dtime ⟨2026, 1, 1⟩,
    max_daily := 1, max_hourly := 1, monthly_budget := 1 }

/-- Witness for C1: with all three limits violated at once, the reported
reason is the monthly-budget one. -/
theorem can_make_request_precedence_witness :
    ((reset_if_needed c1State ⟨⟨2026, 1, 10⟩, 12⟩).monthly_budget ≤
        (reset_if_needed c1State ⟨⟨2026, 1, 10⟩, 12⟩).monthly_cost ∧
      c1State.max_daily ≤ c1State.daily_count ∧
      c1State.max_hourly ≤ c1State.hourly_count) ∧
    (can_make_request c1State ⟨⟨2026, 1, 10⟩, 12⟩).1 =
      (false, monthlyMsg 1) := by
  have hb : (reset_if_needed c1State ⟨⟨2026, 1, 10⟩, 12⟩).monthly_budget ≤
      (reset_if_needed c1State ⟨⟨2026, 1, 10⟩, 12⟩).monthly_cost := by
    show (1 : ℚ) ≤ 2
    norm_num
  have h := (can_make_request_precedence c1State ⟨⟨2026, 1, 10⟩, 12⟩).1 hb
  exact ⟨⟨hb, by decide, by decide⟩, h⟩

/-! ## C3 -/

/-- C3: starting from a fresh hour window (`hourly_count = 0`), with no
boundary crossing at the check time and with monthly-budget and daily
headroom left after the records, a batch of `record_request` calls makes
`can_make_request` deny with the hourly reason exactly when the batch has
reached `max_hourly` calls, and allow with an empty reason when it is still
strictly below. -/
theorem hourly_window_limit (s : UsageTracker) (t : Time) (cs : List ℚ)
    (h1 : dateLt s.last_reset_day t.date = false)
    (h2 : t.hour = s.last_reset_hour)
    (h3 : monthlyResetCond s.monthly_reset (firstOfMonth t.date) = false)
    (h0 : s.hourly_count = 0)
    (hd : s.daily_count + cs.length < s.max_daily)
    (hm : s.monthly_cost + cs.sum < s.monthly_budget) :
    (can_make_request (recordMany s cs) t).1 =
      if s.max_hourly ≤ cs.length then (false, hourlyMsg s.max_hourly)
      else (true, "") := by
  obtain ⟨pd, ph, pm, pmd, pmh, pb⟩ := recordMany_preserves s cs
  have hid : reset_if_needed (recordMany s cs) t = recordMany s cs :=
    reset_if_needed_noop _ _ (by rw [pd]; exact h1) (by rw [ph]; exact h2)
      (by rw [pm]; exact h3)
  have e : (can_make_request (recordMany s cs) t).1 =
      checkLimits (reset_if_needed (recordMany s cs) t) := rfl
  rw [e, hid]
  unfold checkLimits
  have hnb : ¬ ((recordMany s cs).monthly_budget ≤
      (recordMany s cs).monthly_cost) := by
    rw [pb, recordMany_monthly_cost]
    exact not_le.mpr hm
  have hnd : ¬ ((recordMany s cs).max_daily ≤
      (recordMany s cs).daily_count) := by
    rw [pmd, recordMany_daily_count]
    exact not_le.mpr hd
  rw [if_neg hnb, if_neg hnd, pmh, recordMany_hourly_count, h0, Nat.zero_add]

/-- A fresh tracker whose hourly ceiling is 2, checked at a time crossing
no boundary. -/
def c3State : UsageTracker :=
  { daily_count := 0, hourly_count := 0, monthly_cost := 0,
    last_reset_day := ⟨2026, 1, 10⟩, last_reset_hour := 12,
    monthly_reset := .dtime ⟨2026, 1, 1⟩,
    max_daily := 230, max_hourly := 2, monthly_budget := 5 }

/-- Witness for C3: two recorded calls exhaust `max_hourly = 2` and the next
check denies with the hourly reason; after only one call it still allows. -/
theorem hourly_window_limit_witness :
    (can_make_request (recordMany c3State [1/100, 1/50])
        ⟨⟨2026, 1, 10⟩, 12⟩).1 = (false, hourlyMsg 2) ∧
    (can_make_request (recordMany c3State [1/100])
        ⟨⟨2026, 1, 10⟩, 12⟩).1 = (true, "") := by
  have hfull := hourly_window_limit c3State ⟨⟨2026, 1, 10⟩, 12⟩ [1/100, 1/50]
    rfl rfl rfl rfl (by decide)
    (by norm_num [c3State, List.sum_cons, List.sum_nil])
  have hless := hourly_window_limit c3State ⟨⟨2026, 1, 10⟩, 12⟩ [1/100]
    rfl rfl rfl rfl (by decide)
    (by norm_num [c3State, List.sum_cons, List.sum_nil])
  constructor
  · rw [hfull,
      if_pos (by decide : c3State.max_hourly ≤ ([1/100, 1/50] : List ℚ).length)]
    rfl
  · rw [hless,
      if_neg (by decide : ¬ (c3State.max_hourly ≤ ([1/100] : List ℚ).length))]

/-! ## C5 -/

/-- C5: when `can_make_request` denies, `generate_outfit_recommendation`
fails with the rate-limit error carrying that reason, the external call is
never dispatched (third component `false`), and the tracker ends exactly in
the state left by the boundary reset inside `can_make_request` — no count
and no cost is incremented. -/
theorem denied_request_blocks_dispatch (model : String) (s : UsageTracker)
    (t : Time) (ext : Option LLMResponse)
    (h : (can_make_request s t).1.1 = false) :
    generate_outfit_recommendation model s t ext =
      (.error (.rateLimit (can_make_request s t).1.2),
        reset_if_needed s t, false) ∧
    (generate_outfit_recommendation model s t ext).2.1.daily_count =
      (reset_if_needed s t).daily_count ∧
    (generate_outfit_recommendation model s t ext).2.1.hourly_count =
      (reset_if_needed s t).hourly_count ∧
    (generate_outfit_recommendation model s t ext).2.1.monthly_cost =
      (reset_if_needed s t).monthly_cost := by
  have e : generate_outfit_recommendation model s t ext =
      (.error (.rateLimit (can_make_request s t).1.2),
        reset_if_needed s t, false) := by
    simp only [generate_outfit_recommendation]
    rw [if_pos h]
    rfl
  refine ⟨e, ?_, ?_, ?_⟩ <;> rw [e]

/-- A tracker whose hourly limit is exhausted, at a time crossing no
boundary, so the only denial reason is the hourly one. -/
def c5State : UsageTracker :=
  { daily_count := 4, hourly_count := 10, monthly_cost := 1,
    last_reset_day := ⟨2026, 1, 10⟩, last_reset_hour := 12,
    monthly_reset := .dtime ⟨2026, 1, 1⟩,
    max_daily := 230, max_hourly := 10, monthly_budget := 5 }

/-- Witness for C5 on a concrete denied tracker: the request fails with the
hourly rate-limit reason, nothing is dispatched, the state is unchanged. -/
theorem denied_request_blocks_dispatch_witness :
    (can_make_request c5State ⟨⟨2026, 1, 10⟩, 12⟩).1.1 = false ∧
    generate_outfit_recommendation "gpt-4" c5State ⟨⟨2026, 1, 10⟩, 12⟩
        (some ⟨500, 200, true⟩) =
      (.error (.rateLimit (can_make_request c5State ⟨⟨2026, 1, 10⟩, 12⟩).1.2),
        reset_if_needed c5State ⟨⟨2026, 1, 10⟩, 12⟩, false) := by
  have hden : (can_make_request c5State ⟨⟨2026, 1, 10⟩, 12⟩).1.1 = false := rfl
  have h := denied_request_blocks_dispatch "gpt-4" c5State ⟨⟨2026, 1, 10⟩, 12⟩
    (some ⟨500, 200, true⟩) hden
  exact ⟨hden, h.1⟩

/-! ## C6 -/

/-- C6: when the gate allows the request and the external call completes
reporting token usage but its body fails JSON parsing, the estimated cost
is still recorded — `record_request` runs before the parse — so the request
fails with the generation error while `daily_count` and `hourly_count` are
one higher and `monthly_cost` carries the estimated cost of the completed
call. -/
theorem parse_failure_still_records_cost (model : String) (s : UsageTracker)
    (t : Time) (r : LLMResponse)
    (hok : (can_make_request s t).1.1 = true)
    (hp : r.content_parses = false) :
    generate_outfit_recommendation model s t (some r) =
      (.error .generationFailed,
        record_request (reset_if_needed s t)
          (estimate_cost model r.prompt_tokens r.completion_tokens),
        true) ∧
    (generate_outfit_recommendation model s t (some r)).2.1.daily_count =
      (reset_if_needed s t).daily_count + 1 ∧
    (generate_outfit_recommendation model s t (some r)).2.1.hourly_count =
      (reset_if_needed s t).hourly_count + 1 ∧
    (generate_outfit_recommendation model s t (some r)).2.1.monthly_cost =
      (reset_if_needed s t).monthly_cost +
        estimate_cost model r.prompt_tokens r.completion_tokens := by
  have e : generate_outfit_recommendation model s t (some r) =
      (.error .generationFailed,
        record_request (reset_if_needed s t)
          (estimate_cost model r.prompt_tokens r.completion_tokens),
        true) := by
    simp only [generate_outfit_recommendation]
    rw [if_neg (by simp [hok]), if_neg (by simp [hp])]
    rfl
  refine ⟨e, ?_, ?_, ?_⟩ <;> (rw [e]; rfl)

/-- A fresh tracker that allows the request, at a time crossing no
boundary. -/
def c6State : UsageTracker :=
  { daily_count := 0, hourly_count := 0, monthly_cost := 0,
    last_reset_day := ⟨2026, 1, 10⟩, last_reset_hour := 12,
    monthly_reset := .dtime ⟨2026, 1, 1⟩,
    max_daily := 230, max_hourly := 10, monthly_budget := 5 }

/-- Witness for C6: a completed gpt-4 call reporting 2000 input and 1000
output tokens whose body fails parsing still charges its estimated cost. -/
theorem parse_failure_still_records_cost_witness :
    ((can_make_request c6State ⟨⟨2026, 1, 10⟩, 12⟩).1.1 = true ∧
      (⟨2000, 1000, false⟩ : LLMResponse).content_parses = false) ∧
    generate_outfit_recommendation "gpt-4" c6State ⟨⟨2026, 1, 10⟩, 12⟩
        (some ⟨2000, 1000, false⟩) =
      (.error .generationFailed,
        record_request (reset_if_needed c6State ⟨⟨2026, 1, 10⟩, 12⟩)
          (estimate_cost "gpt-4" 2000 1000),
        true) := by
  have hok : (can_make_request c6State ⟨⟨2026, 1, 10⟩, 12⟩).1.1 = true := rfl
  have h := parse_failure_still_records_cost "gpt-4" c6State
    ⟨⟨2026, 1, 10⟩, 12⟩ ⟨2000, 1000, false⟩ hok rfl
  exact ⟨⟨hok, rfl⟩, h.1⟩

/-! ## C9 -/

/-- The head of a filtered list is the first element satisfying the
filter. -/
theorem head?_filter_eq_find? {α : Type} (p : α → Bool) (xs : List α) :
    (xs.filter p).head? = xs.find? p := by
  induction xs with
  | nil => rfl
  | cons x xs ih =>
    by_cases hx : p x = true
    · simp [List.filter_cons, List.find?, hx]
    · simp [List.filter_cons, List.find?, hx, ih]

/-- C9: the demo fallback always succeeds (it is a total function), never
touches any `UsageTracker` (no tracker appears in its type or result),
reports zero cost and zero tokens, and deterministically picks as top the
first candidate whose category is `shirt` or `hoodie` and as bottom the
first whose category is `pants` or `shorts`; on a list holding one shirt
and one pants entry, those two ids are returned. -/
theorem demo_fallback_spec (req : String) (items : List DemoItem) :
    (demo_generate_outfit_recommendation req items).cost_usd = 0 ∧
    (demo_generate_outfit_recommendation req items).tokens_used = 0 ∧
    (demo_generate_outfit_recommendation req items).top.map DemoPick.id =
      (items.find? (fun it =>
        it.category == "shirt" || it.category == "hoodie")).map DemoItem.id ∧
    (demo_generate_outfit_recommendation req items).bottom.map DemoPick.id =
      (items.find? (fun it =>
        it.category == "pants" || it.category == "shorts")).map DemoItem.id ∧
    (demo_generate_outfit_recommendation "casual friday"
        [⟨1, "shirt", none, none, none⟩,
         ⟨2, "pants", none, none, none⟩]).top.map DemoPick.id = some 1 ∧
    (demo_generate_outfit_recommendation "casual friday"
        [⟨1, "shirt", none, none, none⟩,
         ⟨2, "pants", none, none, none⟩]).bottom.map DemoPick.id = some 2 := by
  refine ⟨rfl, rfl, ?_, ?_, rfl, rfl⟩
  · show ((items.filter (fun it =>
        it.category == "shirt" || it.category == "hoodie")).head?.map _).map _ = _
    rw [head?_filter_eq_find?]
    cases items.find? (fun it =>
        it.category == "shirt" || it.category == "hoodie") <;> rfl
  · show ((items.filter (fun it =>
        it.category == "pants" || it.category == "shorts")).head?.map _).map _ = _
    rw [head?_filter_eq_find?]
    cases items.find? (fun it =>
        it.category == "pants" || it.category == "shorts") <;> rfl
